import Mathlib

/-!
Shallow embedding of the state-transition core of the snake game
(`src/model.ts`, `src/update.ts`), together with theorems settling the
specification claims about it.

Conventions of the embedding:
* TypeScript numbers are modelled as `Int` (all arithmetic here is integral).
* The injected random source (`Math.random()` behind the food-placement
  seam) is modelled as an extra `Nat` argument `r`; the source draws
  `randomIndex = floor(random * emptyCells.length)`, i.e. an arbitrary
  index below `emptyCells.length`, which we realize as `r % emptyCells.length`.
* Functions that `throw` in the source return `Except String _`.
* Unguarded array writes such as `cells[y][x].content = c` fault in the
  source when the index is out of range; `modifyAt` leaves the list
  unchanged there instead.  No theorem below exercises that corner.
-/

structure Position where
  x : Int
  y : Int
deriving DecidableEq, Repr

inductive Direction
  | UP
  | DOWN
  | LEFT
  | RIGHT
deriving DecidableEq, Repr

inductive EntityId
  | SNAKE_HEAD
  | SNAKE_BODY
  | FOOD
  | OBSTACLE
  | EMPTY
deriving DecidableEq, Repr

structure Cell where
  position : Position
  content : EntityId
deriving DecidableEq, Repr

structure Snake where
  head : Position
  body : List Position
  direction : Direction
  growing : Bool
deriving DecidableEq, Repr

structure Food where
  position : Position
  value : Int
deriving DecidableEq, Repr

inductive GameStatus
  | RUNNING
  | PAUSED
  | GAME_OVER
deriving DecidableEq, Repr

structure GridDimensions where
  width : Int
  height : Int
deriving DecidableEq, Repr

structure Grid where
  dimensions : GridDimensions
  cells : List (List Cell)
deriving DecidableEq, Repr

structure Model where
  grid : Grid
  snake : Snake
  food : Food
  status : GameStatus
  score : Int
  speed : Int
  obstacles : List Position
  isPaused : Bool
  hasWalls : Bool
  allowWrapping : Bool
deriving DecidableEq, Repr

/-- Messages of `model.ts`.  `CHANGE_SPEED` carries `true` for the payload
value `UP` and `false` for `DOWN`; it exists in the message vocabulary of
the later `model.ts` revision, while `update` in `src/update.ts` has no
case for it and lets it fall to the `default` branch. -/
inductive Msg
  | CHANGE_DIRECTION (payload : Direction)
  | MOVE_SNAKE
  | TOGGLE_PAUSE
  | RESET_GAME
  | CHANGE_SPEED (payload : Bool)
deriving DecidableEq, Repr

/-- Collision classification.  `BODY` is produced only by the variant
resolver of the `part_002` revision of `update.ts`; the primary resolver
uses `SELF`. -/
inductive CollisionType
  | NONE
  | WALL
  | SELF
  | FOOD
  | OBSTACLE
  | BODY
deriving DecidableEq, Repr

structure CollisionResult where
  hasCollision : Bool
  collisionType : CollisionType
deriving DecidableEq, Repr

structure InitConfig where
  gridWidth : Int
  gridHeight : Int
  initialSnakeLength : Int
  hasWalls : Bool
  speed : Int
  allowWrapping : Bool
deriving DecidableEq, Repr

/-- Replace the element at index `i`, leaving the list unchanged when the
index is out of range (the source's unguarded write would fault there). -/
def modifyAt {α : Type} : List α → Nat → (α → α) → List α
  | [], _, _ => []
  | a :: as, 0, f => f a :: as
  | a :: as, n + 1, f => a :: modifyAt as n f

/-- `cells[p.y][p.x].content = c` from the source. -/
def setCellContent (cells : List (List Cell)) (p : Position) (c : EntityId) :
    List (List Cell) :=
  if 0 ≤ p.x ∧ 0 ≤ p.y then
    modifyAt cells p.y.toNat (fun row => modifyAt row p.x.toNat
      (fun cell => { cell with content := c }))
  else cells

/-- Read `cells[p.y][p.x]` when the indices are in range. -/
def cellAt (cells : List (List Cell)) (p : Position) : Option Cell :=
  if 0 ≤ p.x ∧ 0 ≤ p.y then
    match cells[p.y.toNat]? with
    | some row => row[p.x.toNat]?
    | none => none
  else none

/-- The scan of `getRandomEmptyPosition` in `model.ts`: all positions with
`content === 'EMPTY'`, row by row (`y` outer, `x` inner). -/
def emptyCellsIn (cells : List (List Cell)) (width height : Int) : List Position :=
  ((List.range height.toNat).map (fun y =>
    (List.range width.toNat).filterMap (fun x =>
      match cellAt cells { x := (x : Int), y := (y : Int) } with
      | some cell =>
          if cell.content = EntityId.EMPTY then
            some { x := (x : Int), y := (y : Int) }
          else none
      | none => none))).flatten

/-- `getRandomEmptyPosition` of `model.ts`: collect the empty cells, throw
`'No empty cells available'` when there are none, otherwise pick the cell at
the injected random index. -/
def getRandomEmptyPosition (cells : List (List Cell)) (width height : Int)
    (r : Nat) : Except String Position :=
  let emptyCells := emptyCellsIn cells width height
  if h : emptyCells.length = 0 then
    Except.error "No empty cells available"
  else
    Except.ok (emptyCells.get ⟨r % emptyCells.length,
      Nat.mod_lt r (Nat.pos_of_ne_zero h)⟩)

/-- The all-`EMPTY` cell grid built at the start of `init`. -/
def mkEmptyCells (gridWidth gridHeight : Int) : List (List Cell) :=
  (List.range gridHeight.toNat).map (fun y =>
    (List.range gridWidth.toNat).map (fun x =>
      { position := { x := (x : Int), y := (y : Int) },
        content := EntityId.EMPTY }))

/-- `headX = floor(gridWidth / 4)` of `init` (Euclidean `/` agrees with
`Math.floor` division on the nonnegative dimensions used throughout). -/
def initHead (config : InitConfig) : Position :=
  { x := config.gridWidth / 4, y := config.gridHeight / 2 }

/-- The initial body of `init`: segments extending right from the head,
for `i = 1 .. initialSnakeLength - 1`. -/
def initBody (config : InitConfig) : List Position :=
  (List.range (config.initialSnakeLength - 1).toNat).map
    (fun i => { x := (initHead config).x + ((i : Int) + 1),
                y := (initHead config).y : Position })

/-- The cell grid of `init` just before food placement: empty grid, head
marked, in-bounds body segments marked. -/
def initCells (config : InitConfig) : List (List Cell) :=
  let cells0 := mkEmptyCells config.gridWidth config.gridHeight
  let cells1 := setCellContent cells0 (initHead config) EntityId.SNAKE_HEAD
  (initBody config).foldl (fun cs segment =>
    if 0 ≤ segment.y ∧ segment.y < config.gridHeight ∧
        0 ≤ segment.x ∧ segment.x < config.gridWidth then
      setCellContent cs segment EntityId.SNAKE_BODY
    else cs) cells1

/-- `init` of `model.ts`. -/
def init (config : InitConfig) (r : Nat) : Except String Model :=
  match getRandomEmptyPosition (initCells config) config.gridWidth
      config.gridHeight r with
  | Except.error e => Except.error e
  | Except.ok foodPosition =>
      Except.ok {
        grid := { dimensions := { width := config.gridWidth, height := config.gridHeight },
                  cells := setCellContent (initCells config) foodPosition EntityId.FOOD },
        snake := { head := initHead config, body := initBody config,
                   direction := Direction.LEFT, growing := false },
        food := { position := foodPosition, value := 1 },
        status := GameStatus.RUNNING,
        score := 0,
        speed := config.speed,
        obstacles := [],
        isPaused := false,
        hasWalls := config.hasWalls,
        allowWrapping := config.allowWrapping }

/-- `detectCollision` of `src/update.ts` (the primary resolver).  Note that
the wall check does not consult `hasWalls` even though the source
destructures it, and the self check ranges over the whole body including
the tail. -/
def detectCollision (model : Model) (newHead : Position) : CollisionResult :=
  let width := model.grid.dimensions.width
  let height := model.grid.dimensions.height
  if newHead.x < 0 ∨ newHead.x ≥ width ∨ newHead.y < 0 ∨ newHead.y ≥ height then
    { hasCollision := true, collisionType := CollisionType.WALL }
  else if model.snake.body.any
      (fun segment => segment.x == newHead.x && segment.y == newHead.y) then
    { hasCollision := true, collisionType := CollisionType.SELF }
  else if model.obstacles.any
      (fun obstacle => obstacle.x == newHead.x && obstacle.y == newHead.y) then
    { hasCollision := true, collisionType := CollisionType.OBSTACLE }
  else if model.food.position.x == newHead.x && model.food.position.y == newHead.y then
    { hasCollision := true, collisionType := CollisionType.FOOD }
  else
    { hasCollision := false, collisionType := CollisionType.NONE }

/-- `detectCollision` of the `part_002` revision of `update.ts`: the wall
check is gated on `hasWalls`, and the self check reads the grid cell at the
prospective head (cell tags `HEAD`/`BODY` of that revision correspond to
`SNAKE_HEAD`/`SNAKE_BODY` here), excusing the tail segment whenever the
body has more than one segment — regardless of the `growing` flag. -/
def detectCollision2 (model : Model) (newHead : Position) : CollisionResult :=
  let width := model.grid.dimensions.width
  let height := model.grid.dimensions.height
  if model.hasWalls = true ∧
      (newHead.x < 0 ∨ newHead.x ≥ width ∨ newHead.y < 0 ∨ newHead.y ≥ height) then
    { hasCollision := true, collisionType := CollisionType.WALL }
  else if 0 ≤ newHead.y ∧ newHead.y < height ∧ 0 ≤ newHead.x ∧ newHead.x < width then
    match cellAt model.grid.cells newHead with
    | some cellAtNewHead =>
        match cellAtNewHead.content with
        | EntityId.SNAKE_BODY =>
            if model.snake.body.length > 1 then
              match model.snake.body.getLast? with
              | some tailPos =>
                  if tailPos.x ≠ newHead.x ∨ tailPos.y ≠ newHead.y then
                    { hasCollision := true, collisionType := CollisionType.BODY }
                  else
                    { hasCollision := false, collisionType := CollisionType.NONE }
              | none => { hasCollision := false, collisionType := CollisionType.NONE }
            else { hasCollision := false, collisionType := CollisionType.NONE }
        | EntityId.OBSTACLE => { hasCollision := true, collisionType := CollisionType.OBSTACLE }
        | EntityId.FOOD => { hasCollision := true, collisionType := CollisionType.FOOD }
        | _ => { hasCollision := false, collisionType := CollisionType.NONE }
    | none => { hasCollision := false, collisionType := CollisionType.NONE }
  else
    { hasCollision := false, collisionType := CollisionType.NONE }

/-- `isValidDirectionChange` of `update.ts`. -/
def isValidDirectionChange (currentDirection newDirection : Direction) : Bool :=
  !((currentDirection == Direction.UP && newDirection == Direction.DOWN) ||
    (currentDirection == Direction.DOWN && newDirection == Direction.UP) ||
    (currentDirection == Direction.LEFT && newDirection == Direction.RIGHT) ||
    (currentDirection == Direction.RIGHT && newDirection == Direction.LEFT))

/-- `calculateNewHeadPosition` of `update.ts`. -/
def calculateNewHeadPosition (position : Position) (direction : Direction) : Position :=
  match direction with
  | Direction.UP => { position with y := position.y - 1 }
  | Direction.DOWN => { position with y := position.y + 1 }
  | Direction.LEFT => { position with x := position.x - 1 }
  | Direction.RIGHT => { position with x := position.x + 1 }

/-- `applyWrapping` of `update.ts`: four sequential guarded assignments. -/
def applyWrapping (position : Position) (width height : Int) : Position :=
  let x1 := if position.x < 0 then width - 1 else position.x
  let x2 := if x1 ≥ width then 0 else x1
  let y1 := if position.y < 0 then height - 1 else position.y
  let y2 := if y1 ≥ height then 0 else y1
  { x := x2, y := y2 }

/-- The prospective head of a `MOVE_SNAKE` transition: one step in the
current direction, wrapped into bounds when `allowWrapping` is set. -/
def moveTarget (model : Model) : Position :=
  let newHead := calculateNewHeadPosition model.snake.head model.snake.direction
  if model.allowWrapping = true then
    applyWrapping newHead model.grid.dimensions.width model.grid.dimensions.height
  else newHead

/-- The cell-grid rewrite of a `MOVE_SNAKE` transition: clear every
`SNAKE_HEAD`/`SNAKE_BODY` cell, then mark the new head and body. -/
def repaintSnakeCells (cells : List (List Cell)) (newHead : Position)
    (newBody : List Position) : List (List Cell) :=
  let cleared := cells.map (fun row => row.map (fun cell =>
    if cell.content = EntityId.SNAKE_HEAD ∨ cell.content = EntityId.SNAKE_BODY then
      { cell with content := EntityId.EMPTY }
    else cell))
  let withHead := setCellContent cleared newHead EntityId.SNAKE_HEAD
  newBody.foldl (fun cs segment => setCellContent cs segment EntityId.SNAKE_BODY) withHead

/-- The non-lethal tail of the `MOVE_SNAKE` case of `update`: advance the
snake (dropping the tail unless `growing` or food was just eaten), repaint
the cell grid, and on an eating move add the food value to the score and
try to place new food — the placement failure is caught by the source's
`try/catch` (which only logs), so the move still returns a model with the
score already incremented and the food left unchanged. -/
def advanceSnake (model : Model) (r : Nat) : Except String Model :=
  let ateFood : Bool :=
    (detectCollision model (moveTarget model)).collisionType == CollisionType.FOOD
  let newBody0 := model.snake.head :: model.snake.body
  let newBody :=
    if model.snake.growing = false ∧ ateFood = false then newBody0.dropLast
    else newBody0
  let newSnake : Snake :=
    { model.snake with head := moveTarget model, body := newBody, growing := ateFood }
  let cells2 := repaintSnakeCells model.grid.cells (moveTarget model) newBody
  if ateFood = true then
    let score1 := model.score + model.food.value
    match getRandomEmptyPosition cells2 model.grid.dimensions.width
        model.grid.dimensions.height r with
    | Except.ok newFoodPosition =>
        Except.ok { model with
          snake := newSnake,
          grid := { model.grid with
            cells := setCellContent cells2 newFoodPosition EntityId.FOOD },
          score := score1,
          food := { position := newFoodPosition, value := 1 } }
    | Except.error _ =>
        Except.ok { model with
          snake := newSnake,
          grid := { model.grid with cells := cells2 },
          score := score1 }
  else
    Except.ok { model with
      snake := newSnake,
      grid := { model.grid with cells := cells2 } }

/-- The `MOVE_SNAKE` case of `update`: skip while paused, end the game on a
lethal collision without moving, otherwise advance the snake. -/
def moveSnake (model : Model) (r : Nat) : Except String Model :=
  if model.isPaused = true ∨ model.status = GameStatus.PAUSED then
    Except.ok model
  else if (detectCollision model (moveTarget model)).collisionType = CollisionType.WALL ∨
      (detectCollision model (moveTarget model)).collisionType = CollisionType.SELF ∨
      (detectCollision model (moveTarget model)).collisionType = CollisionType.OBSTACLE then
    Except.ok { model with status := GameStatus.GAME_OVER }
  else
    advanceSnake model r

/-- `update` of `src/update.ts`.  Only `RESET_GAME` can propagate an error
(from `init`); the food-placement failure inside `MOVE_SNAKE` is caught in
the source (see `advanceSnake`).  `CHANGE_SPEED` has no case in this
revision and falls to the `default` branch. -/
def update (model : Model) (msg : Msg) (r : Nat) : Except String Model :=
  if model.status = GameStatus.GAME_OVER ∧ msg ≠ Msg.RESET_GAME then
    Except.ok model
  else
    match msg with
    | Msg.CHANGE_DIRECTION newDirection =>
        if isValidDirectionChange model.snake.direction newDirection = false then
          Except.ok model
        else
          Except.ok { model with snake := { model.snake with direction := newDirection } }
    | Msg.MOVE_SNAKE => moveSnake model r
    | Msg.TOGGLE_PAUSE =>
        let newPaused := !model.isPaused
        Except.ok { model with
          isPaused := newPaused,
          status := if newPaused = true then GameStatus.PAUSED else GameStatus.RUNNING }
    | Msg.RESET_GAME =>
        init { gridWidth := model.grid.dimensions.width,
               gridHeight := model.grid.dimensions.height,
               initialSnakeLength := 3,
               hasWalls := model.hasWalls,
               speed := model.speed,
               allowWrapping := model.allowWrapping } r
    | Msg.CHANGE_SPEED _ => Except.ok model

/-- The continuity walk of `validateGameState`: successive segments must be
at Manhattan distance exactly 1 from the previous one. -/
def chainContinuous : Position → List Position → Bool
  | _, [] => true
  | lastSegment, segment :: rest =>
      if (segment.x - lastSegment.x).natAbs + (segment.y - lastSegment.y).natAbs = 1 then
        chainContinuous segment rest
      else false

/-- The `entityPositions` map walk of `validateGameState`: inserting the
positions in order fails exactly when some position repeats, i.e. when the
sequence is not pairwise distinct. -/
def allDistinct : List Position → Bool
  | [] => true
  | p :: rest =>
      if rest.any (fun q => q.x == p.x && q.y == p.y) then false
      else allDistinct rest

/-- `validateGameState` of `model.ts`.  The checks that are vacuous in this
embedding are omitted: the food field is non-nullable (Invariant 6 never
fires), and `status`/`direction` always belong to their enumerations
(Invariants 9 and 12).  `allowWrapping` is never consulted by the source
validator. -/
def validateGameState (model : Model) : Bool :=
  let width := model.grid.dimensions.width
  let height := model.grid.dimensions.height
  let head := model.snake.head
  let body := model.snake.body
  let fx := model.food.position.x
  let fy := model.food.position.y
  if width ≤ 0 ∨ height ≤ 0 then false
  else if chainContinuous head body = false then false
  else if fx < 0 ∨ fx ≥ width ∨ fy < 0 ∨ fy ≥ height then false
  else if (fx = head.x ∧ fy = head.y) ∨
      body.any (fun segment => segment.x == fx && segment.y == fy) then false
  else if model.obstacles.any (fun obs => obs.x == fx && obs.y == fy) then false
  else if allDistinct (head :: (body ++ model.food.position :: model.obstacles)) = false then
    false
  else true

/-- Apply a list of events (each with its injected random value) in order,
stopping at the first propagated error. -/
def runEvents : Model → List (Msg × Nat) → Except String Model
  | model, [] => Except.ok model
  | model, (msg, r) :: rest =>
      match update model msg r with
      | Except.ok m2 => runEvents m2 rest
      | Except.error e => Except.error e

/-- Modelled from the spec: the exact opposite of a direction
(UP↔DOWN, LEFT↔RIGHT). -/
def oppositeDir : Direction → Direction
  | Direction.UP => Direction.DOWN
  | Direction.DOWN => Direction.UP
  | Direction.LEFT => Direction.RIGHT
  | Direction.RIGHT => Direction.LEFT

/-- Modelled from the spec: two positions are wrap-adjacent when they are at
Manhattan distance 1, or they sit on opposite edges of the same row or
column (distance `dimension - 1` along exactly one axis). -/
def specWrapAdjacent (p q : Position) (width height : Int) : Bool :=
  ((p.x - q.x).natAbs + (p.y - q.y).natAbs == 1) ||
  (p.y == q.y && ((p.x == 0 && q.x == width - 1) || (q.x == 0 && p.x == width - 1))) ||
  (p.x == q.x && ((p.y == 0 && q.y == height - 1) || (q.y == 0 && p.y == height - 1)))

/-- A placeholder model used only as the default of `Option.getD` when
naming the result of a computation already proved to succeed. -/
def emptyModel : Model :=
  { grid := { dimensions := { width := 0, height := 0 }, cells := [] },
    snake := { head := { x := 0, y := 0 }, body := [],
               direction := Direction.LEFT, growing := false },
    food := { position := { x := 0, y := 0 }, value := 1 },
    status := GameStatus.RUNNING, score := 0, speed := 0, obstacles := [],
    isPaused := false, hasWalls := false, allowWrapping := false }

/-- A 4×4 walled configuration; `init` puts the head at (1,2) with body
[(2,2),(3,2)] and, with random value 0, the food at (0,0). -/
def c7Config : InitConfig :=
  { gridWidth := 4, gridHeight := 4, initialSnakeLength := 3,
    hasWalls := true, speed := 5, allowWrapping := false }

def c7Start : Model := ((init c7Config 0).toOption).getD emptyModel

/-- Steer the snake from (1,2) to the food at (0,0) and eat it. -/
def c7Events : List (Msg × Nat) :=
  [(Msg.MOVE_SNAKE, 0), (Msg.CHANGE_DIRECTION Direction.UP, 0),
   (Msg.MOVE_SNAKE, 0), (Msg.MOVE_SNAKE, 0)]

def c7End : Model := ((runEvents c7Start c7Events).toOption).getD emptyModel

/-- A 5×5 walled configuration; `init` puts the head at (1,2) with body
[(2,2),(3,2)] and, with random value 0, the food at (0,0). -/
def c1Config : InitConfig :=
  { gridWidth := 5, gridHeight := 5, initialSnakeLength := 3,
    hasWalls := true, speed := 5, allowWrapping := false }

def c1Start : Model := ((init c1Config 0).toOption).getD emptyModel

/-- Walk to the food at (0,0), eat it (the replacement food lands at (4,0)
under random value 3), then make one ordinary move. -/
def c1Events : List (Msg × Nat) :=
  [(Msg.MOVE_SNAKE, 0), (Msg.CHANGE_DIRECTION Direction.UP, 0),
   (Msg.MOVE_SNAKE, 0), (Msg.MOVE_SNAKE, 3),
   (Msg.CHANGE_DIRECTION Direction.RIGHT, 0), (Msg.MOVE_SNAKE, 0)]

def c1AfterThree : Model :=
  ((runEvents c1Start (c1Events.take 3)).toOption).getD emptyModel

def c1AfterFive : Model :=
  ((runEvents c1Start (c1Events.take 5)).toOption).getD emptyModel

/-- A non-growing snake on a 3×3 grid whose body ends at the tail (2,1);
the prospective head (2,1) touches only that tail segment. -/
def c2Model : Model :=
  { grid := { dimensions := { width := 3, height := 3 }, cells := mkEmptyCells 3 3 },
    snake := { head := { x := 1, y := 1 },
               body := [{ x := 1, y := 2 }, { x := 2, y := 2 }, { x := 2, y := 1 }],
               direction := Direction.DOWN, growing := false },
    food := { position := { x := 0, y := 0 }, value := 1 },
    status := GameStatus.RUNNING, score := 0, speed := 5, obstacles := [],
    isPaused := false, hasWalls := true, allowWrapping := false }

/-- A model with wall-mode disabled. -/
def c3Model : Model :=
  { grid := { dimensions := { width := 3, height := 3 }, cells := mkEmptyCells 3 3 },
    snake := { head := { x := 0, y := 0 }, body := [{ x := 1, y := 0 }],
               direction := Direction.LEFT, growing := false },
    food := { position := { x := 2, y := 2 }, value := 1 },
    status := GameStatus.RUNNING, score := 0, speed := 5, obstacles := [],
    isPaused := false, hasWalls := false, allowWrapping := false }

/-- The scenario of the claim: head at (0,5) moving LEFT under wall-mode. -/
def c4Model : Model :=
  { grid := { dimensions := { width := 10, height := 10 }, cells := mkEmptyCells 10 10 },
    snake := { head := { x := 0, y := 5 },
               body := [{ x := 1, y := 5 }, { x := 2, y := 5 }],
               direction := Direction.LEFT, growing := false },
    food := { position := { x := 7, y := 7 }, value := 1 },
    status := GameStatus.RUNNING, score := 0, speed := 5, obstacles := [],
    isPaused := false, hasWalls := true, allowWrapping := false }

/-- A finished game on the 4×4 grid, with a nonzero score. -/
def c5GoModel : Model :=
  { c7Start with status := GameStatus.GAME_OVER, score := 7 }

def c5ResetModel : Model :=
  ((update c5GoModel Msg.RESET_GAME 0).toOption).getD emptyModel

/-- A running model with direction LEFT, for direction-change witnesses. -/
def c6Model : Model :=
  { c3Model with hasWalls := true }

/-- A full 2×2 grid about to eat the last food: head (0,0) moving RIGHT
onto the food at (1,0), body covering the remaining two cells. -/
def c8Model : Model :=
  { grid := { dimensions := { width := 2, height := 2 },
              cells := [[{ position := { x := 0, y := 0 }, content := EntityId.SNAKE_HEAD },
                         { position := { x := 1, y := 0 }, content := EntityId.FOOD }],
                        [{ position := { x := 0, y := 1 }, content := EntityId.SNAKE_BODY },
                         { position := { x := 1, y := 1 }, content := EntityId.SNAKE_BODY }]] },
    snake := { head := { x := 0, y := 0 },
               body := [{ x := 0, y := 1 }, { x := 1, y := 1 }],
               direction := Direction.RIGHT, growing := false },
    food := { position := { x := 1, y := 0 }, value := 1 },
    status := GameStatus.RUNNING, score := 0, speed := 5, obstacles := [],
    isPaused := false, hasWalls := true, allowWrapping := false }

def c8After : Model := ((update c8Model Msg.MOVE_SNAKE 0).toOption).getD emptyModel

/-- Wrap mode on a 3×3 grid with a wrap-adjacent chain: head (0,1), body
[(2,1)] across the left edge; everything else about the state is valid. -/
def c9Model : Model :=
  { grid := { dimensions := { width := 3, height := 3 }, cells := mkEmptyCells 3 3 },
    snake := { head := { x := 0, y := 1 }, body := [{ x := 2, y := 1 }],
               direction := Direction.LEFT, growing := false },
    food := { position := { x := 1, y := 0 }, value := 1 },
    status := GameStatus.RUNNING, score := 0, speed := 5, obstacles := [],
    isPaused := false, hasWalls := false, allowWrapping := true }

/-- The same wrap-mode setting with a strictly continuous chain. -/
def c9bModel : Model :=
  { c9Model with
    snake := { head := { x := 1, y := 1 }, body := [{ x := 2, y := 1 }],
               direction := Direction.LEFT, growing := false } }

/-- A paused model with direction LEFT. -/
def c10Model : Model :=
  { c6Model with status := GameStatus.PAUSED, isPaused := true }

/-! ### Helper lemmas -/

lemma isValidDirectionChange_eq_false_iff (c d : Direction) :
    isValidDirectionChange c d = false ↔ d = oppositeDir c := by
  cases c <;> cases d <;> decide

lemma update_change_direction (model : Model) (d : Direction) (r : Nat)
    (hgo : model.status ≠ GameStatus.GAME_OVER) :
    update model (Msg.CHANGE_DIRECTION d) r =
      if isValidDirectionChange model.snake.direction d = false then Except.ok model
      else Except.ok { model with snake := { model.snake with direction := d } } := by
  unfold update
  rw [if_neg (fun hcon => hgo hcon.1)]

lemma update_move (model : Model) (r : Nat)
    (hgo : model.status ≠ GameStatus.GAME_OVER) :
    update model Msg.MOVE_SNAKE r = moveSnake model r := by
  unfold update
  rw [if_neg (fun hcon => hgo hcon.1)]

lemma update_reset (model : Model) (r : Nat) :
    update model Msg.RESET_GAME r =
      init { gridWidth := model.grid.dimensions.width,
             gridHeight := model.grid.dimensions.height,
             initialSnakeLength := 3, hasWalls := model.hasWalls,
             speed := model.speed, allowWrapping := model.allowWrapping } r := by
  unfold update
  rw [if_neg (fun hcon => hcon.2 rfl)]

lemma init_ok_fields (config : InitConfig) (r : Nat) (m : Model)
    (h : init config r = Except.ok m) :
    m.status = GameStatus.RUNNING ∧ m.score = 0 ∧ m.snake.growing = false ∧
    m.food.value = 1 ∧
    m.grid.dimensions = { width := config.gridWidth, height := config.gridHeight } ∧
    m.hasWalls = config.hasWalls ∧ m.allowWrapping = config.allowWrapping ∧
    m.speed = config.speed := by
  unfold init at h
  split at h
  · exact absurd h (by simp)
  · injection h with h2
    subst h2
    exact ⟨rfl, rfl, rfl, rfl, rfl, rfl, rfl, rfl⟩

/-! ### C2 — self collision and the tail -/

/-- C2 (counterexample): the primary resolver classifies a prospective head
equal to the current tail segment of a non-growing snake as SELF — the
claim says such a snake does not die. -/
theorem self_tail_not_excused_counterexample :
    c2Model.snake.growing = false ∧
    c2Model.snake.body.getLast? = some { x := 2, y := 1 } ∧
    c2Model.snake.body.dropLast.all
      (fun segment => !(segment.x == 2 && segment.y == 1)) = true ∧
    detectCollision c2Model { x := 2, y := 1 } =
      { hasCollision := true, collisionType := CollisionType.SELF } := by
  decide

/-- C2 (amended): the primary resolver returns SELF exactly when the
prospective head is within bounds and equals some body segment — any body
segment, the current tail included; the tail is never excused, whatever the
`growing` flag. -/
theorem self_no_tail_excuse (model : Model) (newHead : Position) :
    (detectCollision model newHead).collisionType = CollisionType.SELF ↔
      ¬ (newHead.x < 0 ∨ newHead.x ≥ model.grid.dimensions.width ∨
         newHead.y < 0 ∨ newHead.y ≥ model.grid.dimensions.height) ∧
      ∃ segment ∈ model.snake.body,
        segment.x = newHead.x ∧ segment.y = newHead.y := by
  simp only [detectCollision]
  split
  · simp_all
  · split
    · simp_all [List.any_eq_true, Bool.and_eq_true, beq_iff_eq]
    · split
      · simp_all [List.any_eq_true, Bool.and_eq_true, beq_iff_eq]
      · split
        · simp_all [List.any_eq_true, Bool.and_eq_true, beq_iff_eq]
        · simp_all [List.any_eq_true, Bool.and_eq_true, beq_iff_eq]

/-! ### C3 — wall collision and wall-mode -/

/-- C3 (counterexample): with wall-mode disabled, the primary resolver still
classifies an out-of-bounds prospective head as WALL — the claim says WALL
is never returned when wall-mode is disabled. -/
theorem wall_mode_ignored_counterexample :
    c3Model.hasWalls = false ∧
    detectCollision c3Model { x := -1, y := 0 } =
      { hasCollision := true, collisionType := CollisionType.WALL } := by
  decide

/-- C3 (amended): the primary resolver returns WALL if and only if the
prospective head is out of bounds, regardless of wall-mode; only the
`part_002` variant resolver implements the claimed gating, returning WALL
iff wall-mode is enabled and the head is out of bounds. -/
theorem wall_iff_out_of_bounds (model : Model) (newHead : Position) :
    ((detectCollision model newHead).collisionType = CollisionType.WALL ↔
      (newHead.x < 0 ∨ newHead.x ≥ model.grid.dimensions.width ∨
       newHead.y < 0 ∨ newHead.y ≥ model.grid.dimensions.height)) ∧
    ((detectCollision2 model newHead).collisionType = CollisionType.WALL ↔
      model.hasWalls = true ∧
      (newHead.x < 0 ∨ newHead.x ≥ model.grid.dimensions.width ∨
       newHead.y < 0 ∨ newHead.y ≥ model.grid.dimensions.height)) := by
  constructor
  · simp only [detectCollision]
    split
    · simp_all
    · split
      · simp_all
      · split
        · simp_all
        · split
          · simp_all
          · simp_all
  · simp only [detectCollision2]
    split
    · simp_all
    · rename_i hnw
      repeat' split
      all_goals exact iff_of_false (by simp) hnw

/-! ### C4 — lethal collisions freeze the state -/

/-- C4: when a `MOVE_SNAKE` on a running, unpaused state resolves a WALL,
SELF, or OBSTACLE collision, `update` returns the pre-move state with only
the status changed to GAME_OVER — head, body, direction, food, score,
obstacles, speed, and grid are untouched. -/
theorem lethal_collision_freezes_state (model : Model) (r : Nat)
    (hrun : model.status = GameStatus.RUNNING) (hp : model.isPaused = false)
    (hc : (detectCollision model (moveTarget model)).collisionType = CollisionType.WALL ∨
          (detectCollision model (moveTarget model)).collisionType = CollisionType.SELF ∨
          (detectCollision model (moveTarget model)).collisionType = CollisionType.OBSTACLE) :
    update model Msg.MOVE_SNAKE r =
      Except.ok { model with status := GameStatus.GAME_OVER } := by
  rw [update_move model r (by simp [hrun])]
  unfold moveSnake
  rw [if_neg (by simp [hp, hrun]), if_pos hc]

/-- C4 (witness): the claim's concrete scenario — head at (0,5) moving LEFT
under wall-mode ends the game with the head still at (0,5). -/
theorem lethal_collision_freezes_state_witness :
    c4Model.snake.head = { x := 0, y := 5 } ∧ c4Model.hasWalls = true ∧
    c4Model.status = GameStatus.RUNNING ∧
    update c4Model Msg.MOVE_SNAKE 0 =
      Except.ok { c4Model with status := GameStatus.GAME_OVER } ∧
    ({ c4Model with status := GameStatus.GAME_OVER } : Model).snake.head =
      { x := 0, y := 5 } :=
  ⟨rfl, rfl, rfl, lethal_collision_freezes_state c4Model 0 rfl rfl (by decide), rfl⟩

/-! ### C5 — GAME_OVER is absorbing; RESET_GAME reinitializes -/

/-- C5: from GAME_OVER every event other than RESET_GAME returns the state
unchanged; and RESET_GAME (from any status) delegates to `init` with the
current configuration, so a successful reset yields a fresh RUNNING state
with score 0 and the grid dimensions, wall mode, wrap mode, and speed of
the old state. -/
theorem game_over_absorbing_reset_reinitializes :
    (∀ model msg r, model.status = GameStatus.GAME_OVER → msg ≠ Msg.RESET_GAME →
      update model msg r = Except.ok model) ∧
    (∀ model r,
      update model Msg.RESET_GAME r =
        init { gridWidth := model.grid.dimensions.width,
               gridHeight := model.grid.dimensions.height,
               initialSnakeLength := 3, hasWalls := model.hasWalls,
               speed := model.speed, allowWrapping := model.allowWrapping } r ∧
      ∀ m2, update model Msg.RESET_GAME r = Except.ok m2 →
        m2.status = GameStatus.RUNNING ∧ m2.score = 0 ∧
        m2.snake.growing = false ∧
        m2.grid.dimensions = model.grid.dimensions ∧
        m2.hasWalls = model.hasWalls ∧ m2.allowWrapping = model.allowWrapping ∧
        m2.speed = model.speed) := by
  constructor
  · intro model msg r hgo hmsg
    unfold update
    rw [if_pos ⟨hgo, hmsg⟩]
  · intro model r
    refine ⟨update_reset model r, ?_⟩
    intro m2 h2
    rw [update_reset model r] at h2
    obtain ⟨h1, h2, h3, _, h5, h6, h7, h8⟩ := init_ok_fields _ r m2 h2
    exact ⟨h1, h2, h3, h5, h6, h7, h8⟩

/-- C5 (witness): a finished game ignores MOVE_SNAKE, and its reset yields
a running state with score 0 on the same 4×4 grid. -/
theorem game_over_absorbing_reset_reinitializes_witness :
    update c5GoModel Msg.MOVE_SNAKE 0 = Except.ok c5GoModel ∧
    c5ResetModel.status = GameStatus.RUNNING ∧ c5ResetModel.score = 0 ∧
    c5ResetModel.grid.dimensions = c5GoModel.grid.dimensions :=
  ⟨game_over_absorbing_reset_reinitializes.1 c5GoModel Msg.MOVE_SNAKE 0 rfl (by decide),
   ((game_over_absorbing_reset_reinitializes.2 c5GoModel 0).2 c5ResetModel rfl).1,
   ((game_over_absorbing_reset_reinitializes.2 c5GoModel 0).2 c5ResetModel rfl).2.1,
   ((game_over_absorbing_reset_reinitializes.2 c5GoModel 0).2 c5ResetModel rfl).2.2.2.1⟩

/-! ### C6 — direction changes outside GAME_OVER -/

/-- C6: while the game is not over, a CHANGE_DIRECTION carrying the exact
opposite of the current direction is silently rejected (the model is
returned unchanged), and any non-opposite direction is installed as the
snake's new direction; the source's validity test rejects exactly the
opposite direction. -/
theorem direction_change_rules :
    (∀ c d, isValidDirectionChange c d = false ↔ d = oppositeDir c) ∧
    (∀ model d r, model.status ≠ GameStatus.GAME_OVER →
      (d = oppositeDir model.snake.direction →
        update model (Msg.CHANGE_DIRECTION d) r = Except.ok model) ∧
      (d ≠ oppositeDir model.snake.direction →
        update model (Msg.CHANGE_DIRECTION d) r =
          Except.ok { model with snake := { model.snake with direction := d } })) := by
  refine ⟨isValidDirectionChange_eq_false_iff, ?_⟩
  intro model d r hgo
  rw [update_change_direction model d r hgo]
  constructor
  · intro hopp
    rw [if_pos ((isValidDirectionChange_eq_false_iff _ _).mpr hopp)]
  · intro hnopp
    rw [if_neg (fun hf => hnopp ((isValidDirectionChange_eq_false_iff _ _).mp hf))]

/-- C6 (witness): with current direction LEFT, RIGHT is rejected unchanged
and UP is installed. -/
theorem direction_change_rules_witness :
    update c6Model (Msg.CHANGE_DIRECTION Direction.RIGHT) 0 = Except.ok c6Model ∧
    update c6Model (Msg.CHANGE_DIRECTION Direction.UP) 0 =
      Except.ok { c6Model with snake := { c6Model.snake with direction := Direction.UP } } :=
  ⟨(direction_change_rules.2 c6Model Direction.RIGHT 0 (by decide)).1 (by decide),
   (direction_change_rules.2 c6Model Direction.UP 0 (by decide)).2 (by decide)⟩

/-! ### C10 — pausing does not block direction changes -/

/-- C10: on a PAUSED state, CHANGE_DIRECTION with any direction that is not
the opposite of the current one installs that direction — only GAME_OVER
blocks direction changes. -/
theorem paused_direction_change (model : Model) (d : Direction) (r : Nat)
    (hst : model.status = GameStatus.PAUSED)
    (hd : d ≠ oppositeDir model.snake.direction) :
    update model (Msg.CHANGE_DIRECTION d) r =
      Except.ok { model with snake := { model.snake with direction := d } } := by
  rw [update_change_direction model d r (by simp [hst])]
  rw [if_neg (fun hf => hd ((isValidDirectionChange_eq_false_iff _ _).mp hf))]

/-- C10 (witness): the paused model accepts UP. -/
theorem paused_direction_change_witness :
    c10Model.status = GameStatus.PAUSED ∧
    update c10Model (Msg.CHANGE_DIRECTION Direction.UP) 0 =
      Except.ok { c10Model with snake := { c10Model.snake with direction := Direction.UP } } :=
  ⟨rfl, paused_direction_change c10Model Direction.UP 0 rfl (by decide)⟩

/-! ### Branch lemmas for `advanceSnake` -/

lemma advanceSnake_eats (model : Model) (r : Nat)
    (hfood : (detectCollision model (moveTarget model)).collisionType = CollisionType.FOOD) :
    ∃ m2, advanceSnake model r = Except.ok m2 ∧
      m2.snake.body = model.snake.head :: model.snake.body ∧
      m2.snake.head = moveTarget model ∧
      m2.snake.growing = true ∧
      m2.score = model.score + model.food.value ∧
      (m2.food = model.food ∨ m2.food.value = 1) := by
  unfold advanceSnake
  simp only [hfood, beq_self_eq_true, Bool.true_eq_false, and_false, if_false]
  cases hplace : getRandomEmptyPosition
      (repaintSnakeCells model.grid.cells (moveTarget model)
        (model.snake.head :: model.snake.body))
      model.grid.dimensions.width model.grid.dimensions.height r with
  | ok fp =>
      simp only [hplace]
      exact ⟨_, rfl, rfl, rfl, rfl, rfl, Or.inr rfl⟩
  | error e =>
      simp only [hplace]
      exact ⟨_, rfl, rfl, rfl, rfl, rfl, Or.inl rfl⟩

lemma advanceSnake_eats_error (model : Model) (r : Nat) (e : String)
    (hfood : (detectCollision model (moveTarget model)).collisionType = CollisionType.FOOD)
    (herr : getRandomEmptyPosition
        (repaintSnakeCells model.grid.cells (moveTarget model)
          (model.snake.head :: model.snake.body))
        model.grid.dimensions.width model.grid.dimensions.height r =
      Except.error e) :
    advanceSnake model r = Except.ok
      { model with
        snake :=
          { model.snake with
            head := moveTarget model,
            body := model.snake.head :: model.snake.body,
            growing := true },
        grid :=
          { model.grid with
            cells := repaintSnakeCells model.grid.cells (moveTarget model)
              (model.snake.head :: model.snake.body) },
        score := model.score + model.food.value } := by
  unfold advanceSnake
  simp only [hfood, beq_self_eq_true, Bool.true_eq_false, and_false, if_false, herr]
  rw [if_pos trivial]

lemma advanceSnake_ordinary (model : Model) (r : Nat)
    (hnf : (detectCollision model (moveTarget model)).collisionType ≠ CollisionType.FOOD) :
    advanceSnake model r = Except.ok
      { model with
        snake :=
          { model.snake with
            head := moveTarget model,
            body :=
              if model.snake.growing = false
              then (model.snake.head :: model.snake.body).dropLast
              else model.snake.head :: model.snake.body,
            growing := false },
        grid :=
          { model.grid with
            cells := repaintSnakeCells model.grid.cells (moveTarget model)
              (if model.snake.growing = false
               then (model.snake.head :: model.snake.body).dropLast
               else model.snake.head :: model.snake.body) } } := by
  have hb : ((detectCollision model (moveTarget model)).collisionType ==
      CollisionType.FOOD) = false := by
    simp [hnf]
  unfold advanceSnake
  simp only [hb, and_true, Bool.false_eq_true, if_false]

/-! ### C1 — growth per food eaten -/

/-- C1 (counterexample): starting from `init` on a 5×5 grid (length 3), the
snake eats exactly one food (score ends at 1) and, after one further
ordinary move, its total length is 5 = 3 + 2 — not 3 + 1 as claimed: tail
removal is suppressed both on the eating move and, via the `growing` flag,
on the following move. -/
theorem growth_plus_two_counterexample :
    init c1Config 0 = Except.ok c1Start ∧
    1 + c1Start.snake.body.length = 3 ∧
    (runEvents c1Start (c1Events.take 4)).map
      (fun m => (1 + m.snake.body.length, m.score, m.snake.growing)) =
      Except.ok (4, 1, true) ∧
    (runEvents c1Start c1Events).map
      (fun m => (1 + m.snake.body.length, m.score)) = Except.ok (5, 1) :=
  ⟨rfl, rfl, rfl, rfl⟩

/-- C1 (amended): each food eaten increases the snake's length by exactly
two, in two steps — the eating move itself keeps the tail (length +1,
`growing` set), and the next ordinary move keeps the tail once more
(length +1 again, `growing` cleared). -/
theorem growth_two_ticks :
    (∀ model r, model.status ≠ GameStatus.GAME_OVER → model.isPaused = false →
      model.status ≠ GameStatus.PAUSED →
      (detectCollision model (moveTarget model)).collisionType = CollisionType.FOOD →
      ∃ m2, update model Msg.MOVE_SNAKE r = Except.ok m2 ∧
        m2.snake.body.length = model.snake.body.length + 1 ∧
        m2.snake.growing = true) ∧
    (∀ model r, model.status ≠ GameStatus.GAME_OVER → model.isPaused = false →
      model.status ≠ GameStatus.PAUSED → model.snake.growing = true →
      (detectCollision model (moveTarget model)).collisionType = CollisionType.NONE →
      ∃ m2, update model Msg.MOVE_SNAKE r = Except.ok m2 ∧
        m2.snake.body.length = model.snake.body.length + 1 ∧
        m2.snake.growing = false) := by
  constructor
  · intro model r hgo hp hps hfood
    rw [update_move model r hgo]
    unfold moveSnake
    rw [if_neg (by simp [hp, hps]), if_neg (by simp [hfood])]
    obtain ⟨m2, hm2, hbody, _, hgrow, _, _⟩ := advanceSnake_eats model r hfood
    exact ⟨m2, hm2, by simp [hbody], hgrow⟩
  · intro model r hgo hp hps hgrowing hnone
    rw [update_move model r hgo]
    unfold moveSnake
    rw [if_neg (by simp [hp, hps]), if_neg (by simp [hnone])]
    rw [advanceSnake_ordinary model r (by simp [hnone])]
    refine ⟨_, rfl, ?_, rfl⟩
    simp [hgrowing]

/-- C1 (witness): the two steps of `growth_two_ticks` at the concrete
states of the 5×5 trace — the eating move and the first move after it. -/
theorem growth_two_ticks_witness :
    (∃ m2, update c1AfterThree Msg.MOVE_SNAKE 3 = Except.ok m2 ∧
      m2.snake.body.length = c1AfterThree.snake.body.length + 1 ∧
      m2.snake.growing = true) ∧
    (∃ m2, update c1AfterFive Msg.MOVE_SNAKE 0 = Except.ok m2 ∧
      m2.snake.body.length = c1AfterFive.snake.body.length + 1 ∧
      m2.snake.growing = false) :=
  ⟨growth_two_ticks.1 c1AfterThree 3 (by decide) rfl (by decide) (by decide),
   growth_two_ticks.2 c1AfterFive 0 (by decide) rfl (by decide) rfl (by decide)⟩

/-! ### C8 — grid-full behavior on food placement -/

/-- C8 (counterexample): eating the last food on a full 2×2 grid does not
propagate any error from `update` — the move returns `Except.ok`, with the
score incremented and the food left at its already-eaten position. -/
theorem grid_full_silently_caught_counterexample :
    (update c8Model Msg.MOVE_SNAKE 0).isOk = true ∧
    update c8Model Msg.MOVE_SNAKE 0 = Except.ok c8After ∧
    c8After.food = c8Model.food ∧
    c8After.score = c8Model.score + c8Model.food.value ∧
    c8After.status = GameStatus.RUNNING :=
  ⟨rfl, rfl, rfl, rfl, rfl⟩

/-- C8 (amended): when an eating move finds no empty cell for the new food,
the placement error is caught inside `update`: the transition succeeds, the
snake moves and grows, the score is still incremented by the food value,
and the food and status fields are left unchanged — no grid-full condition
reaches the caller. -/
theorem food_placement_error_caught (model : Model) (r : Nat) (e : String)
    (hgo : model.status ≠ GameStatus.GAME_OVER) (hp : model.isPaused = false)
    (hps : model.status ≠ GameStatus.PAUSED)
    (hfood : (detectCollision model (moveTarget model)).collisionType = CollisionType.FOOD)
    (herr : getRandomEmptyPosition
        (repaintSnakeCells model.grid.cells (moveTarget model)
          (model.snake.head :: model.snake.body))
        model.grid.dimensions.width model.grid.dimensions.height r =
      Except.error e) :
    update model Msg.MOVE_SNAKE r = Except.ok
      { model with
        snake :=
          { model.snake with
            head := moveTarget model,
            body := model.snake.head :: model.snake.body,
            growing := true },
        grid :=
          { model.grid with
            cells := repaintSnakeCells model.grid.cells (moveTarget model)
              (model.snake.head :: model.snake.body) },
        score := model.score + model.food.value } ∧
    ∀ m2, update model Msg.MOVE_SNAKE r = Except.ok m2 →
      m2.food = model.food ∧ m2.status = model.status := by
  have heq : update model Msg.MOVE_SNAKE r = Except.ok
      { model with
        snake :=
          { model.snake with
            head := moveTarget model,
            body := model.snake.head :: model.snake.body,
            growing := true },
        grid :=
          { model.grid with
            cells := repaintSnakeCells model.grid.cells (moveTarget model)
              (model.snake.head :: model.snake.body) },
        score := model.score + model.food.value } := by
    rw [update_move model r hgo]
    unfold moveSnake
    rw [if_neg (by simp [hp, hps]), if_neg (by simp [hfood])]
    exact advanceSnake_eats_error model r e hfood herr
  refine ⟨heq, ?_⟩
  intro m2 h2
  rw [heq] at h2
  injection h2 with h3
  subst h3
  exact ⟨rfl, rfl⟩

/-- C8 (witness): `food_placement_error_caught` at the full 2×2 grid. -/
theorem food_placement_error_caught_witness :
    update c8Model Msg.MOVE_SNAKE 0 = Except.ok
      { c8Model with
        snake :=
          { c8Model.snake with
            head := moveTarget c8Model,
            body := c8Model.snake.head :: c8Model.snake.body,
            growing := true },
        grid :=
          { c8Model.grid with
            cells := repaintSnakeCells c8Model.grid.cells (moveTarget c8Model)
              (c8Model.snake.head :: c8Model.snake.body) },
        score := c8Model.score + c8Model.food.value } :=
  (food_placement_error_caught c8Model 0 "No empty cells available"
    (by decide) rfl (by decide) (by decide) rfl).1

/-! ### C7 — score across event sequences -/

lemma moveSnake_score (model : Model) (r : Nat) (m2 : Model)
    (hfv : 0 ≤ model.food.value) (h : moveSnake model r = Except.ok m2) :
    model.score ≤ m2.score ∧ 0 ≤ m2.food.value := by
  unfold moveSnake at h
  split at h
  · injection h with h2
    subst h2
    exact ⟨le_refl _, hfv⟩
  · split at h
    · injection h with h2
      subst h2
      exact ⟨le_refl _, hfv⟩
    · by_cases hfood :
          (detectCollision model (moveTarget model)).collisionType = CollisionType.FOOD
      · obtain ⟨m3, hm3, _, _, _, hscore, hfd⟩ := advanceSnake_eats model r hfood
        rw [hm3] at h
        injection h with h2
        subst h2
        refine ⟨by rw [hscore]; omega, ?_⟩
        rcases hfd with hfd | hfd
        · rw [hfd]; exact hfv
        · rw [hfd]; exact Int.one_nonneg
      · rw [advanceSnake_ordinary model r hfood] at h
        injection h with h2
        subst h2
        exact ⟨le_refl _, hfv⟩

lemma update_score_step (model : Model) (msg : Msg) (r : Nat) (m2 : Model)
    (hmsg : msg ≠ Msg.RESET_GAME) (hfv : 0 ≤ model.food.value)
    (h : update model msg r = Except.ok m2) :
    model.score ≤ m2.score ∧ 0 ≤ m2.food.value := by
  unfold update at h
  split at h
  · injection h with h2
    subst h2
    exact ⟨le_refl _, hfv⟩
  · cases msg with
    | CHANGE_DIRECTION d =>
        simp only [] at h
        split at h <;> (injection h with h2; subst h2; exact ⟨le_refl _, hfv⟩)
    | MOVE_SNAKE => exact moveSnake_score model r m2 hfv h
    | TOGGLE_PAUSE =>
        simp only [] at h
        injection h with h2
        subst h2
        exact ⟨le_refl _, hfv⟩
    | RESET_GAME => exact absurd rfl hmsg
    | CHANGE_SPEED b =>
        injection h with h2
        subst h2
        exact ⟨le_refl _, hfv⟩

lemma runEvents_score (evs : List (Msg × Nat)) :
    ∀ model m2, (∀ e ∈ evs, e.1 ≠ Msg.RESET_GAME) → 0 ≤ model.food.value →
      runEvents model evs = Except.ok m2 →
      model.score ≤ m2.score ∧ 0 ≤ m2.food.value := by
  induction evs with
  | nil =>
      intro model m2 _ hfv h
      injection h with h2
      subst h2
      exact ⟨le_refl _, hfv⟩
  | cons ev rest ih =>
      intro model m2 hall hfv h
      obtain ⟨msg, r⟩ := ev
      unfold runEvents at h
      cases hup : update model msg r with
      | ok m3 =>
          rw [hup] at h
          have hstep := update_score_step model msg r m3
            (hall (msg, r) (List.mem_cons_self _ _)) hfv hup
          have hrest := ih m3 m2
            (fun e he => hall e (List.mem_cons_of_mem _ he)) hstep.2 h
          exact ⟨le_trans hstep.1 hrest.1, hrest.2⟩
      | error e =>
          rw [hup] at h
          exact absurd h (by simp)

/-- C7 (counterexample): from an `init` state, eating one food raises the
score to 1, but a subsequent RESET_GAME (an event of the claimed alphabet)
drops it back to 0 — the score is not non-decreasing across sequences that
contain RESET_GAME. -/
theorem score_drops_on_reset_counterexample :
    init c7Config 0 = Except.ok c7Start ∧
    (runEvents c7Start c7Events).map Model.score = Except.ok 1 ∧
    (runEvents c7Start (c7Events ++ [(Msg.RESET_GAME, 0)])).map Model.score =
      Except.ok 0 ∧
    ¬ ((1 : Int) ≤ 0) :=
  ⟨rfl, rfl, rfl, by decide⟩

/-- C7 (amended): along any event sequence free of RESET_GAME, starting
from any state produced by `init`, the score is non-decreasing; RESET_GAME
starts a new game whose score is 0 again. -/
theorem score_monotone_without_reset (config : InitConfig) (r0 : Nat) (m0 : Model)
    (hinit : init config r0 = Except.ok m0) (evs : List (Msg × Nat))
    (hevs : ∀ e ∈ evs, e.1 ≠ Msg.RESET_GAME) (m2 : Model)
    (hrun : runEvents m0 evs = Except.ok m2) :
    m0.score ≤ m2.score := by
  have hfv : 0 ≤ m0.food.value := by
    rw [(init_ok_fields config r0 m0 hinit).2.2.2.1]
    exact Int.one_nonneg
  exact (runEvents_score evs m0 m2 hevs hfv hrun).1

/-- C7 (witness): `score_monotone_without_reset` along the RESET-free 4×4
trace. -/
theorem score_monotone_without_reset_witness :
    c7Start.score ≤ c7End.score :=
  score_monotone_without_reset c7Config 0 c7Start rfl c7Events (by decide) c7End rfl

/-! ### C9 — validator continuity under wrap mode -/

/-- C9 (counterexample): a wrap-mode state whose only body segment is
wrap-adjacent to the head across the left edge — grid dimensions positive,
food valid, all positions distinct — is rejected by `validateGameState`,
although the claim says the validator accepts wrap-adjacent continuity. -/
theorem wrap_adjacent_rejected_counterexample :
    c9Model.allowWrapping = true ∧
    c9Model.snake.body = [{ x := 2, y := 1 }] ∧
    specWrapAdjacent c9Model.snake.head { x := 2, y := 1 }
      c9Model.grid.dimensions.width c9Model.grid.dimensions.height = true ∧
    (0 < c9Model.grid.dimensions.width ∧ 0 < c9Model.grid.dimensions.height) ∧
    allDistinct (c9Model.snake.head ::
      (c9Model.snake.body ++ c9Model.food.position :: c9Model.obstacles)) = true ∧
    validateGameState c9Model = false := by
  decide

/-- C9 (amended): the validator's continuity check demands Manhattan
distance exactly 1 between consecutive segments even when wrap mode is
active — a state can only validate if its chain is strictly continuous;
wrap-adjacent pairs are rejected. -/
theorem validator_requires_strict_continuity (model : Model)
    (_hwrap : model.allowWrapping = true) (hv : validateGameState model = true) :
    chainContinuous model.snake.head model.snake.body = true := by
  by_contra hne
  have hfalse : chainContinuous model.snake.head model.snake.body = false := by
    cases h2 : chainContinuous model.snake.head model.snake.body
    · rfl
    · exact absurd h2 hne
  simp only [validateGameState] at hv
  rw [hfalse] at hv
  split at hv
  · exact absurd hv (by simp)
  · simp at hv

/-- C9 (witness): a strictly continuous wrap-mode state validates, and the
theorem recovers its continuity. -/
theorem validator_requires_strict_continuity_witness :
    c9bModel.allowWrapping = true ∧
    validateGameState c9bModel = true ∧
    chainContinuous c9bModel.snake.head c9bModel.snake.body = true :=
  ⟨rfl, by decide, validator_requires_strict_continuity c9bModel rfl (by decide)⟩
